import Mathlib

/-!
Verification of the interactive session state machine of `src/main.rs`
(a terminal PostgreSQL browser).  The Rust code is shallowly embedded:
`AppState` and its methods follow the struct and `impl` block at
src/main.rs lines 38-97, and `dispatch` follows the key-event `match`
of the main loop at lines 229-291.  Machine integers: the only place
Rust `usize` arithmetic can wrap is `len() - 1` in the navigation
guards; it is modelled by `len_minus_one`, which reproduces the
release-build wrap-around (debug builds would panic there).
-/

/-- Size of the Rust `usize` value space, 2 ^ 64, written as a numeral so
that `omega` can work with it. -/
def USIZE : Nat := 18446744073709551616

/-- Rust release-build `n - 1` on `usize`: `n - 1` for positive `n`, and
`2 ^ 64 - 1` when `n = 0` (wrap-around; a debug build panics instead).
Used by the navigation guards `selected < self.xs.len() - 1`. -/
def len_minus_one (n : Nat) : Nat := (n + (USIZE - 1)) % USIZE

/-- The `ActivePane` enum of src/main.rs lines 30-36. -/
inductive ActivePane
  | Databases
  | Tables
  | Main
  | QueryInput
deriving DecidableEq

/-- The `AppState` struct of src/main.rs lines 38-46.  The Rust `String`
query buffer is modelled as a `List Char`, matching the per-`char`
`push`/`pop` operations the code performs on it. -/
structure AppState where
  databases : List String
  selected_database : Option Nat
  tables : List String
  selected_table : Option Nat
  query : List Char
  query_result : String
  active_pane : ActivePane
deriving DecidableEq

/-- `AppState::new` (src/main.rs lines 49-59): both selections start at
`Some(0)` unconditionally, and `tables` starts empty. -/
def AppState.new (databases : List String) : AppState :=
  { databases := databases
    selected_database := some 0
    tables := []
    selected_table := some 0
    query := []
    query_result := ""
    active_pane := ActivePane.Databases }

/-- `AppState::next_database` (src/main.rs lines 61-67): move down one if
`selected < databases.len() - 1`, the subtraction being `usize`. -/
def AppState.next_database (s : AppState) : AppState :=
  match s.selected_database with
  | some selected =>
      if selected < len_minus_one s.databases.length then
        { s with selected_database := some (selected + 1) }
      else s
  | none => s

/-- `AppState::previous_database` (src/main.rs lines 69-75). -/
def AppState.previous_database (s : AppState) : AppState :=
  match s.selected_database with
  | some selected =>
      if selected > 0 then
        { s with selected_database := some (selected - 1) }
      else s
  | none => s

/-- `AppState::next_table` (src/main.rs lines 77-83). -/
def AppState.next_table (s : AppState) : AppState :=
  match s.selected_table with
  | some selected =>
      if selected < len_minus_one s.tables.length then
        { s with selected_table := some (selected + 1) }
      else s
  | none => s

/-- `AppState::previous_table` (src/main.rs lines 85-91). -/
def AppState.previous_table (s : AppState) : AppState :=
  match s.selected_table with
  | some selected =>
      if selected > 0 then
        { s with selected_table := some (selected - 1) }
      else s
  | none => s

/-- `AppState::set_tables` (src/main.rs lines 93-96): replaces the table
list and resets `selected_table` to `Some(0)` unconditionally. -/
def AppState.set_tables (s : AppState) (tables : List String) : AppState :=
  { s with tables := tables, selected_table := some 0 }

/-- The spec's `push_query_char`: `app_state.query.push(c)` at
src/main.rs line 272. -/
def AppState.push_query_char (s : AppState) (c : Char) : AppState :=
  { s with query := s.query ++ [c] }

/-- The spec's `pop_query_char`: `app_state.query.pop()` at
src/main.rs line 275; `String::pop` on an empty buffer does nothing. -/
def AppState.pop_query_char (s : AppState) : AppState :=
  { s with query := s.query.dropLast }

/-- The database gateway (the `tokio_postgres` calls of `fetch_tables`
and `execute_query`), abstracted as fallible functions: `fetch_tables`
returns the table names of a database, `query_rows` returns the rows a
free-form query produces, each row a list of stringified cells.  Any
connection or query failure is an `Except.error` carrying the message. -/
structure Gateway where
  fetch_tables : String → Except String (List String)
  query_rows : String → String → Except String (List (List String))

/-- `execute_query` (src/main.rs lines 312-323): on success the code
discards the rows and returns the summary string
`"Executed query successfully. Rows returned: {rows.len()}"`. -/
def execute_query (g : Gateway) (db_name : String) (query : String) :
    Except String String :=
  match g.query_rows db_name query with
  | Except.ok rows =>
      Except.ok ("Executed query successfully. Rows returned: " ++ toString rows.length)
  | Except.error e => Except.error e

/-- Key codes the dispatcher distinguishes (crossterm `KeyCode`). -/
inductive KeyCode
  | Char (c : Char)
  | Backspace
  | Enter
  | OtherKey
deriving DecidableEq

/-- Key modifiers the dispatcher distinguishes: the code only ever tests
for `CONTROL` and `NONE` exactly; every other modifier combination is
`OTHER` and only reaches the wildcard-modifier arms. -/
inductive KeyModifiers
  | NONE
  | CONTROL
  | OTHER
deriving DecidableEq

/-- A gateway request issued while handling one key event, recorded so
that frame conditions ("no network call") can be stated. -/
inductive GCall
  | fetch_tables (db : String)
  | run_query (db : String) (q : String)
deriving DecidableEq

/-- Outcome of handling one key event in the main loop
(src/main.rs lines 229-291):
`running s'` continues the loop with the new state, `quit s'` is the
`break` of the quit arm, `fatal e` is an error propagated out of `main`
by the `?` on `fetch_tables(..).await?` (terminating the session), and
`crashed` is a Rust panic from indexing `databases[selected]` out of
bounds. -/
inductive StepOutcome
  | running (s : AppState)
  | quit (s : AppState)
  | fatal (e : String)
  | crashed
deriving DecidableEq

/-- The input dispatcher: the `match (key.code, key.modifiers)` of the
main loop (src/main.rs lines 230-290), arm for arm and in the same
order.  Returns the outcome together with the list of gateway calls the
arm performed. -/
def dispatch (g : Gateway) (s : AppState) (code : KeyCode) (mods : KeyModifiers) :
    StepOutcome × List GCall :=
  match code, mods with
  | KeyCode.Char 'h', KeyModifiers.CONTROL =>
      (StepOutcome.running { s with active_pane := ActivePane.Databases }, [])
  | KeyCode.Char 'j', KeyModifiers.CONTROL =>
      (StepOutcome.running { s with active_pane := ActivePane.Tables }, [])
  | KeyCode.Char 'k', KeyModifiers.CONTROL =>
      (StepOutcome.running { s with active_pane := ActivePane.Main }, [])
  | KeyCode.Char 'l', KeyModifiers.CONTROL =>
      (StepOutcome.running { s with active_pane := ActivePane.QueryInput }, [])
  | KeyCode.Char 'j', KeyModifiers.NONE =>
      if s.active_pane = ActivePane.Databases then
        let s1 := s.next_database
        match s1.selected_database with
        | some selected =>
            match s1.databases[selected]? with
            | none => (StepOutcome.crashed, [])
            | some db_name =>
                match g.fetch_tables db_name with
                | Except.error e => (StepOutcome.fatal e, [GCall.fetch_tables db_name])
                | Except.ok tables =>
                    (StepOutcome.running (s1.set_tables tables), [GCall.fetch_tables db_name])
        | none => (StepOutcome.running s1, [])
      else if s.active_pane = ActivePane.Tables then
        (StepOutcome.running s.next_table, [])
      else (StepOutcome.running s, [])
  | KeyCode.Char 'k', KeyModifiers.NONE =>
      if s.active_pane = ActivePane.Databases then
        let s1 := s.previous_database
        match s1.selected_database with
        | some selected =>
            match s1.databases[selected]? with
            | none => (StepOutcome.crashed, [])
            | some db_name =>
                match g.fetch_tables db_name with
                | Except.error e => (StepOutcome.fatal e, [GCall.fetch_tables db_name])
                | Except.ok tables =>
                    (StepOutcome.running (s1.set_tables tables), [GCall.fetch_tables db_name])
        | none => (StepOutcome.running s1, [])
      else if s.active_pane = ActivePane.Tables then
        (StepOutcome.running s.previous_table, [])
      else (StepOutcome.running s, [])
  | KeyCode.Char c, _ =>
      if s.active_pane = ActivePane.QueryInput then
        (StepOutcome.running (s.push_query_char c), [])
      else if c = 'q' then
        (StepOutcome.quit s, [])
      else (StepOutcome.running s, [])
  | KeyCode.Backspace, _ =>
      if s.active_pane = ActivePane.QueryInput then
        (StepOutcome.running s.pop_query_char, [])
      else (StepOutcome.running s, [])
  | KeyCode.Enter, _ =>
      if s.active_pane = ActivePane.QueryInput then
        match s.selected_database with
        | some selected =>
            match s.databases[selected]? with
            | none => (StepOutcome.crashed, [])
            | some db_name =>
                let q := String.mk s.query
                match execute_query g db_name q with
                | Except.ok res =>
                    (StepOutcome.running { s with query_result := res },
                     [GCall.run_query db_name q])
                | Except.error err =>
                    (StepOutcome.running { s with query_result := "Error: " ++ err },
                     [GCall.run_query db_name q])
        | none => (StepOutcome.running s, [])
      else (StepOutcome.running s, [])
  | KeyCode.OtherKey, _ => (StepOutcome.running s, [])

/-- The pure Session State operations the main loop performs between
renders, as a reachability predicate: a state is `Reachable` when some
sequence of the operations of src/main.rs lines 61-96 and 271-286
(selection moves, table replacement, query-buffer edits, result storage,
focus switches) produces it from `AppState::new`.  The `length < USIZE`
side conditions record that a Rust `Vec` can never hold `2 ^ 64` or more
elements. -/
inductive Reachable : AppState → Prop
  | init (dbs : List String) (h : dbs.length < USIZE) : Reachable (AppState.new dbs)
  | next_db {s : AppState} : Reachable s → Reachable s.next_database
  | prev_db {s : AppState} : Reachable s → Reachable s.previous_database
  | next_tab {s : AppState} : Reachable s → Reachable s.next_table
  | prev_tab {s : AppState} : Reachable s → Reachable s.previous_table
  | set_tabs {s : AppState} (ts : List String) (h : ts.length < USIZE) :
      Reachable s → Reachable (s.set_tables ts)
  | push_char {s : AppState} (c : Char) : Reachable s → Reachable (s.push_query_char c)
  | pop_char {s : AppState} : Reachable s → Reachable s.pop_query_char
  | set_result {s : AppState} (r : String) : Reachable s → Reachable { s with query_result := r }
  | set_focus {s : AppState} (p : ActivePane) : Reachable s → Reachable { s with active_pane := p }

/-- The selection invariant the code actually maintains: both selections
are always `Some` (never `None`), and the selected index is in range
whenever the corresponding list is non-empty.  For an empty list the
index is `Some` and out of range (`AppState::new` and `set_tables` both
install `Some(0)` unconditionally), which is why the spec's stronger
`Some(i) ⟺ 0 ≤ i < len` biconditional fails. -/
def SelInv (s : AppState) : Prop :=
  s.databases.length < USIZE ∧ s.tables.length < USIZE ∧
  (∃ i, s.selected_database = some i) ∧
  (∃ j, s.selected_table = some j) ∧
  (∀ i, s.selected_database = some i → s.databases ≠ [] → i < s.databases.length) ∧
  (∀ j, s.selected_table = some j → s.tables ≠ [] → j < s.tables.length)

/-- One "next"/"previous" keypress on the database or table list. -/
inductive NavOp
  | next_db
  | prev_db
  | next_tab
  | prev_tab
deriving DecidableEq

/-- Apply one navigation keypress to the state. -/
def applyNav (s : AppState) : NavOp → AppState
  | NavOp.next_db => s.next_database
  | NavOp.prev_db => s.previous_database
  | NavOp.next_tab => s.next_table
  | NavOp.prev_tab => s.previous_table

/-- Apply a whole sequence of navigation keypresses, left to right. -/
def applyNavs (s : AppState) (ops : List NavOp) : AppState := ops.foldl applyNav s

/-- Well-formed navigation state: both lists are of representable `Vec`
length and both selected indices are in `[0, len)` — in particular both
lists are non-empty. -/
def NavGood (s : AppState) : Prop :=
  s.databases.length < USIZE ∧ s.tables.length < USIZE ∧
  (∃ i, s.selected_database = some i ∧ i < s.databases.length) ∧
  (∃ j, s.selected_table = some j ∧ j < s.tables.length)

/-- A gateway on which every request succeeds with an empty answer. -/
def g0 : Gateway :=
  { fetch_tables := fun _ => Except.ok []
    query_rows := fun _ _ => Except.ok [] }

/-- A gateway on which every request fails with message "boom". -/
def gErr : Gateway :=
  { fetch_tables := fun _ => Except.error ("boom")
    query_rows := fun _ _ => Except.error ("boom") }

/-- A gateway whose queries succeed with the single row `["1"]`. -/
def gOne : Gateway :=
  { fetch_tables := fun _ => Except.ok []
    query_rows := fun _ _ => Except.ok [[("1" : String)]] }

/-- A state focused on the (empty) query editor. -/
def sQI : AppState := { AppState.new ["app"] with active_pane := ActivePane.QueryInput }

/-- A state focused on the database list with two databases, the first
selected. -/
def sDbs : AppState := (AppState.new ["a", "b"]).set_tables ["t"]

/-- A state focused on the query editor with the buffer holding
`SELECT 1`. -/
def sSel : AppState :=
  { AppState.new ["app"] with
      active_pane := ActivePane.QueryInput
      query := ("SELECT 1").toList }

/-- A state focused on the table list with two tables, the first
selected. -/
def sTab : AppState :=
  { (AppState.new ["a"]).set_tables ["t", "u"] with active_pane := ActivePane.Tables }

/-- A one-database, one-table state with both selections at index 0. -/
def sNav : AppState := (AppState.new ["a"]).set_tables ["t"]

/-- A state whose selections are both absent. -/
def sNone : AppState :=
  { AppState.new [] with selected_database := none, selected_table := none }

/-- For a representable positive length, the wrapped subtraction agrees
with the exact one. -/
theorem len_minus_one_of_pos {n : Nat} (h1 : 0 < n) (h2 : n < USIZE) :
    len_minus_one n = n - 1 := by
  unfold len_minus_one
  have he : n + (USIZE - 1) = (n - 1) + USIZE := by unfold USIZE at *; omega
  rw [he, Nat.add_mod_right]
  exact Nat.mod_eq_of_lt (by unfold USIZE at *; omega)

/-- On an empty list the wrapped `len - 1` is `usize::MAX`. -/
theorem len_minus_one_zero : len_minus_one 0 = USIZE - 1 := by decide

/-- Reduction of `dispatch` at the quit key, for every modifier. -/
theorem dispatch_q_eq (g : Gateway) (s : AppState) (m : KeyModifiers) :
    dispatch g s (KeyCode.Char 'q') m =
      (if s.active_pane = ActivePane.QueryInput then
        (StepOutcome.running (s.push_query_char 'q'), [])
      else (StepOutcome.quit s, [])) := by
  cases m <;> rfl

/-- Reduction of `dispatch` at the confirm (Enter) key, for every
modifier. -/
theorem dispatch_enter_eq (g : Gateway) (s : AppState) (m : KeyModifiers) :
    dispatch g s KeyCode.Enter m =
      (if s.active_pane = ActivePane.QueryInput then
        match s.selected_database with
        | some selected =>
            match s.databases[selected]? with
            | none => (StepOutcome.crashed, [])
            | some db_name =>
                match execute_query g db_name (String.mk s.query) with
                | Except.ok res =>
                    (StepOutcome.running { s with query_result := res },
                     [GCall.run_query db_name (String.mk s.query)])
                | Except.error err =>
                    (StepOutcome.running { s with query_result := "Error: " ++ err },
                     [GCall.run_query db_name (String.mk s.query)])
        | none => (StepOutcome.running s, [])
      else (StepOutcome.running s, [])) := by
  cases m <;> rfl

/-- Reduction of `dispatch` at the unmodified next key. -/
theorem dispatch_j_none_eq (g : Gateway) (s : AppState) :
    dispatch g s (KeyCode.Char 'j') KeyModifiers.NONE =
      (if s.active_pane = ActivePane.Databases then
        match s.next_database.selected_database with
        | some selected =>
            match s.next_database.databases[selected]? with
            | none => (StepOutcome.crashed, [])
            | some db_name =>
                match g.fetch_tables db_name with
                | Except.error e => (StepOutcome.fatal e, [GCall.fetch_tables db_name])
                | Except.ok tables =>
                    (StepOutcome.running (s.next_database.set_tables tables),
                     [GCall.fetch_tables db_name])
        | none => (StepOutcome.running s.next_database, [])
      else if s.active_pane = ActivePane.Tables then
        (StepOutcome.running s.next_table, [])
      else (StepOutcome.running s, [])) := rfl

/-- Reduction of `dispatch` at the unmodified previous key. -/
theorem dispatch_k_none_eq (g : Gateway) (s : AppState) :
    dispatch g s (KeyCode.Char 'k') KeyModifiers.NONE =
      (if s.active_pane = ActivePane.Databases then
        match s.previous_database.selected_database with
        | some selected =>
            match s.previous_database.databases[selected]? with
            | none => (StepOutcome.crashed, [])
            | some db_name =>
                match g.fetch_tables db_name with
                | Except.error e => (StepOutcome.fatal e, [GCall.fetch_tables db_name])
                | Except.ok tables =>
                    (StepOutcome.running (s.previous_database.set_tables tables),
                     [GCall.fetch_tables db_name])
        | none => (StepOutcome.running s.previous_database, [])
      else if s.active_pane = ActivePane.Tables then
        (StepOutcome.running s.previous_table, [])
      else (StepOutcome.running s, [])) := rfl

/-- Moving the table selection forward touches no field but
`selected_table`. -/
theorem next_table_eq_update (s : AppState) :
    s.next_table = { s with selected_table := s.next_table.selected_table } := by
  unfold AppState.next_table
  rcases hs : s.selected_table with _ | i
  · rfl
  · dsimp only
    by_cases hlt : i < len_minus_one s.tables.length
    · rw [if_pos hlt]
    · rw [if_neg hlt]

/-- Moving the table selection backward touches no field but
`selected_table`. -/
theorem previous_table_eq_update (s : AppState) :
    s.previous_table = { s with selected_table := s.previous_table.selected_table } := by
  unfold AppState.previous_table
  rcases hs : s.selected_table with _ | i
  · rfl
  · dsimp only
    by_cases hlt : i > 0
    · rw [if_pos hlt]
    · rw [if_neg hlt]

/-- The initial state satisfies the selection invariant. -/
theorem selinv_new (dbs : List String) (h : dbs.length < USIZE) :
    SelInv (AppState.new dbs) := by
  refine ⟨h, ?_, ⟨0, rfl⟩, ⟨0, rfl⟩, ?_, ?_⟩
  · show (0 : Nat) < USIZE
    decide
  · intro i hi hne
    have h0 : (0 : Nat) = i := by simpa [AppState.new] using hi
    subst h0
    have hne' : dbs ≠ [] := hne
    show 0 < dbs.length
    exact List.length_pos.mpr hne'
  · intro j hj hne
    exact absurd rfl hne

/-- `next_database` preserves the selection invariant. -/
theorem selinv_next_database {s : AppState} (h : SelInv s) : SelInv s.next_database := by
  obtain ⟨hdb, htb, ⟨i, hi⟩, hj, hbi, hbj⟩ := h
  unfold AppState.next_database
  rw [hi]
  dsimp only
  by_cases hlt : i < len_minus_one s.databases.length
  · rw [if_pos hlt]
    refine ⟨hdb, htb, ⟨i + 1, rfl⟩, hj, ?_, hbj⟩
    intro i' hi' hne
    have he : i + 1 = i' := by simpa using hi'
    subst he
    have hne' : s.databases ≠ [] := hne
    have h1 : 0 < s.databases.length := List.length_pos.mpr hne'
    rw [len_minus_one_of_pos h1 hdb] at hlt
    show i + 1 < s.databases.length
    omega
  · rw [if_neg hlt]
    exact ⟨hdb, htb, ⟨i, hi⟩, hj, hbi, hbj⟩

/-- `previous_database` preserves the selection invariant. -/
theorem selinv_previous_database {s : AppState} (h : SelInv s) :
    SelInv s.previous_database := by
  obtain ⟨hdb, htb, ⟨i, hi⟩, hj, hbi, hbj⟩ := h
  unfold AppState.previous_database
  rw [hi]
  dsimp only
  by_cases hpos : i > 0
  · rw [if_pos hpos]
    refine ⟨hdb, htb, ⟨i - 1, rfl⟩, hj, ?_, hbj⟩
    intro i' hi' hne
    have he : i - 1 = i' := by simpa using hi'
    subst he
    have hne' : s.databases ≠ [] := hne
    have := hbi i hi hne'
    show i - 1 < s.databases.length
    omega
  · rw [if_neg hpos]
    exact ⟨hdb, htb, ⟨i, hi⟩, hj, hbi, hbj⟩

/-- `next_table` preserves the selection invariant. -/
theorem selinv_next_table {s : AppState} (h : SelInv s) : SelInv s.next_table := by
  obtain ⟨hdb, htb, hi, ⟨j, hj⟩, hbi, hbj⟩ := h
  unfold AppState.next_table
  rw [hj]
  dsimp only
  by_cases hlt : j < len_minus_one s.tables.length
  · rw [if_pos hlt]
    refine ⟨hdb, htb, hi, ⟨j + 1, rfl⟩, hbi, ?_⟩
    intro j' hj' hne
    have he : j + 1 = j' := by simpa using hj'
    subst he
    have hne' : s.tables ≠ [] := hne
    have h1 : 0 < s.tables.length := List.length_pos.mpr hne'
    rw [len_minus_one_of_pos h1 htb] at hlt
    show j + 1 < s.tables.length
    omega
  · rw [if_neg hlt]
    exact ⟨hdb, htb, hi, ⟨j, hj⟩, hbi, hbj⟩

/-- `previous_table` preserves the selection invariant. -/
theorem selinv_previous_table {s : AppState} (h : SelInv s) :
    SelInv s.previous_table := by
  obtain ⟨hdb, htb, hi, ⟨j, hj⟩, hbi, hbj⟩ := h
  unfold AppState.previous_table
  rw [hj]
  dsimp only
  by_cases hpos : j > 0
  · rw [if_pos hpos]
    refine ⟨hdb, htb, hi, ⟨j - 1, rfl⟩, hbi, ?_⟩
    intro j' hj' hne
    have he : j - 1 = j' := by simpa using hj'
    subst he
    have hne' : s.tables ≠ [] := hne
    have := hbj j hj hne'
    show j - 1 < s.tables.length
    omega
  · rw [if_neg hpos]
    exact ⟨hdb, htb, hi, ⟨j, hj⟩, hbi, hbj⟩

/-- `set_tables` preserves the selection invariant (for a representable
new list). -/
theorem selinv_set_tables {s : AppState} (ts : List String) (hts : ts.length < USIZE)
    (h : SelInv s) : SelInv (s.set_tables ts) := by
  obtain ⟨hdb, _, hi, _, hbi, _⟩ := h
  refine ⟨hdb, hts, hi, ⟨0, rfl⟩, hbi, ?_⟩
  intro j hj hne
  have h0 : (0 : Nat) = j := by simpa [AppState.set_tables] using hj
  subst h0
  have hne' : ts ≠ [] := hne
  show 0 < ts.length
  exact List.length_pos.mpr hne'

/-- One navigation keypress preserves in-range selections. -/
theorem navgood_applyNav {s : AppState} (h : NavGood s) (op : NavOp) :
    NavGood (applyNav s op) := by
  obtain ⟨hdb, htb, ⟨i, hi, hilt⟩, ⟨j, hj, hjlt⟩⟩ := h
  cases op with
  | next_db =>
      show NavGood s.next_database
      unfold AppState.next_database
      rw [hi]
      dsimp only
      by_cases hlt : i < len_minus_one s.databases.length
      · rw [if_pos hlt]
        rw [len_minus_one_of_pos (by omega) hdb] at hlt
        exact ⟨hdb, htb, ⟨i + 1, rfl, by show i + 1 < s.databases.length; omega⟩,
               ⟨j, hj, hjlt⟩⟩
      · rw [if_neg hlt]
        exact ⟨hdb, htb, ⟨i, hi, hilt⟩, ⟨j, hj, hjlt⟩⟩
  | prev_db =>
      show NavGood s.previous_database
      unfold AppState.previous_database
      rw [hi]
      dsimp only
      by_cases hpos : i > 0
      · rw [if_pos hpos]
        exact ⟨hdb, htb, ⟨i - 1, rfl, by show i - 1 < s.databases.length; omega⟩,
               ⟨j, hj, hjlt⟩⟩
      · rw [if_neg hpos]
        exact ⟨hdb, htb, ⟨i, hi, hilt⟩, ⟨j, hj, hjlt⟩⟩
  | next_tab =>
      show NavGood s.next_table
      unfold AppState.next_table
      rw [hj]
      dsimp only
      by_cases hlt : j < len_minus_one s.tables.length
      · rw [if_pos hlt]
        rw [len_minus_one_of_pos (by omega) htb] at hlt
        exact ⟨hdb, htb, ⟨i, hi, hilt⟩,
               ⟨j + 1, rfl, by show j + 1 < s.tables.length; omega⟩⟩
      · rw [if_neg hlt]
        exact ⟨hdb, htb, ⟨i, hi, hilt⟩, ⟨j, hj, hjlt⟩⟩
  | prev_tab =>
      show NavGood s.previous_table
      unfold AppState.previous_table
      rw [hj]
      dsimp only
      by_cases hpos : j > 0
      · rw [if_pos hpos]
        exact ⟨hdb, htb, ⟨i, hi, hilt⟩,
               ⟨j - 1, rfl, by show j - 1 < s.tables.length; omega⟩⟩
      · rw [if_neg hpos]
        exact ⟨hdb, htb, ⟨i, hi, hilt⟩, ⟨j, hj, hjlt⟩⟩

/-- Every navigation sequence preserves in-range selections. -/
theorem navgood_applyNavs (ops : List NavOp) (s : AppState) (h : NavGood s) :
    NavGood (applyNavs s ops) := by
  induction ops generalizing s with
  | nil => exact h
  | cons op rest ih => exact ih (applyNav s op) (navgood_applyNav h op)

/-- "next" at the last database index is a no-op. -/
theorem next_database_clamp_last {s : AppState} (hdb : s.databases.length < USIZE)
    (h0 : 0 < s.databases.length)
    (h : s.selected_database = some (s.databases.length - 1)) :
    s.next_database = s := by
  unfold AppState.next_database
  rw [h]
  dsimp only
  rw [if_neg (by rw [len_minus_one_of_pos h0 hdb]; omega)]

/-- "previous" at database index 0 is a no-op. -/
theorem previous_database_clamp_zero {s : AppState}
    (h : s.selected_database = some 0) : s.previous_database = s := by
  unfold AppState.previous_database
  rw [h]
  dsimp only
  rw [if_neg (by omega)]

/-- "next" at the last table index is a no-op. -/
theorem next_table_clamp_last {s : AppState} (htb : s.tables.length < USIZE)
    (h0 : 0 < s.tables.length)
    (h : s.selected_table = some (s.tables.length - 1)) :
    s.next_table = s := by
  unfold AppState.next_table
  rw [h]
  dsimp only
  rw [if_neg (by rw [len_minus_one_of_pos h0 htb]; omega)]

/-- "previous" at table index 0 is a no-op. -/
theorem previous_table_clamp_zero {s : AppState}
    (h : s.selected_table = some 0) : s.previous_table = s := by
  unfold AppState.previous_table
  rw [h]
  dsimp only
  rw [if_neg (by omega)]

/-- C1 (evaluation at the failing input): with the query editor focused,
the unmodified character keys 'j' and 'k' are NOT appended to the query
buffer — they match the navigation arms (src/main.rs lines 246 and 258),
which precede the query-input arm (line 271) and do nothing outside the
Databases/Tables panes — while an ordinary character such as 'a' is
appended.  This contradicts the claim that dispatch appends *every*
unmodified character while the editor has focus. -/
theorem c1_editor_drops_nav_chars :
    dispatch g0 sQI (KeyCode.Char 'j') KeyModifiers.NONE = (StepOutcome.running sQI, []) ∧
    dispatch g0 sQI (KeyCode.Char 'k') KeyModifiers.NONE = (StepOutcome.running sQI, []) ∧
    dispatch g0 sQI (KeyCode.Char 'a') KeyModifiers.NONE =
      (StepOutcome.running (sQI.push_query_char 'a'), []) ∧
    sQI.push_query_char 'j' ≠ sQI := by
  refine ⟨by decide, by decide, by decide, by decide⟩

/-- C2 (counterexample): a failed table-list refetch on a database
switch is NOT caught: with the database list focused and a gateway whose
`fetch_tables` fails with "boom", the next-database key makes the main
loop propagate the error out of `main` via `?` (outcome
`StepOutcome.fatal`), terminating the session instead of substituting an
empty table list and storing the error in `query_result`. -/
theorem c2_counterexample :
    dispatch gErr sDbs (KeyCode.Char 'j') KeyModifiers.NONE =
      (StepOutcome.fatal ("boom"), [GCall.fetch_tables ("b")]) ∧
    (dispatch gErr sDbs (KeyCode.Char 'j') KeyModifiers.NONE).1 ≠
      StepOutcome.running ((sDbs.next_database).set_tables []) := by
  refine ⟨by decide, by decide⟩

/-- C2 (amended): query-execution errors are caught at the Enter call
site and stored in `query_result` as `"Error: " ++ message` without
terminating the session; but a table-list refetch error on a database
switch (either navigation key) is not caught: it propagates out of the
main loop and terminates the session, leaving the table list
unreplaced. -/
theorem c2_amended_error_paths :
    (∀ (g : Gateway) (s : AppState) (m : KeyModifiers) (i : Nat) (db e : String),
        s.active_pane = ActivePane.QueryInput →
        s.selected_database = some i →
        s.databases[i]? = some db →
        g.query_rows db (String.mk s.query) = Except.error e →
        dispatch g s KeyCode.Enter m =
          (StepOutcome.running { s with query_result := "Error: " ++ e },
           [GCall.run_query db (String.mk s.query)])) ∧
    (∀ (g : Gateway) (s : AppState) (i : Nat) (db e : String),
        s.active_pane = ActivePane.Databases →
        s.next_database.selected_database = some i →
        s.next_database.databases[i]? = some db →
        g.fetch_tables db = Except.error e →
        dispatch g s (KeyCode.Char 'j') KeyModifiers.NONE =
          (StepOutcome.fatal e, [GCall.fetch_tables db])) ∧
    (∀ (g : Gateway) (s : AppState) (i : Nat) (db e : String),
        s.active_pane = ActivePane.Databases →
        s.previous_database.selected_database = some i →
        s.previous_database.databases[i]? = some db →
        g.fetch_tables db = Except.error e →
        dispatch g s (KeyCode.Char 'k') KeyModifiers.NONE =
          (StepOutcome.fatal e, [GCall.fetch_tables db])) := by
  refine ⟨?_, ?_, ?_⟩
  · intro g s m i db e hpane hsel hget hq
    rw [dispatch_enter_eq, if_pos hpane, hsel]
    dsimp only
    rw [hget]
    dsimp only
    unfold execute_query
    rw [hq]
  · intro g s i db e hpane hsel hget hf
    rw [dispatch_j_none_eq, if_pos hpane, hsel]
    dsimp only
    rw [hget]
    dsimp only
    rw [hf]
  · intro g s i db e hpane hsel hget hf
    rw [dispatch_k_none_eq, if_pos hpane, hsel]
    dsimp only
    rw [hget]
    dsimp only
    rw [hf]

/-- C2 (witness): the amended theorem applied at concrete inputs — a
failing query execution stores `"Error: boom"` and keeps the session
running; a failing table-list refetch aborts the session. -/
theorem c2_witness :
    dispatch gErr sSel KeyCode.Enter KeyModifiers.NONE =
      (StepOutcome.running { sSel with query_result := "Error: " ++ "boom" },
       [GCall.run_query ("app") (String.mk sSel.query)]) ∧
    dispatch gErr sDbs (KeyCode.Char 'j') KeyModifiers.NONE =
      (StepOutcome.fatal ("boom"), [GCall.fetch_tables ("b")]) :=
  ⟨c2_amended_error_paths.1 gErr sSel KeyModifiers.NONE 0 ("app") ("boom")
      rfl rfl rfl rfl,
   c2_amended_error_paths.2.1 gErr sDbs 1 ("b") ("boom") rfl rfl rfl rfl⟩

/-- C3 (counterexample): replacing the table list with the empty list
leaves `selected_table = Some(0)`, not `None` as the claim requires —
`set_tables` resets to `Some(0)` unconditionally. -/
theorem c3_counterexample :
    ((AppState.new ["db"]).set_tables []).selected_table = some 0 ∧
    ((AppState.new ["db"]).set_tables []).selected_table ≠ none := by
  refine ⟨rfl, by decide⟩

/-- C3 (amended): for every list `new_tables`, `set_tables` sets
`tables = new_tables` and resets `selected_table` to `Some(0)`
unconditionally, even when `new_tables` is empty. -/
theorem c3_amended_set_tables (s : AppState) (ts : List String) :
    (s.set_tables ts).tables = ts ∧ (s.set_tables ts).selected_table = some 0 :=
  ⟨rfl, rfl⟩

/-- C4 (counterexample): already the initial state violates the claimed
biconditional — `AppState::new` installs `selected_table = Some(0)`
while `tables` is empty, so `Some(0)` holds without `0 < len(tables)`. -/
theorem c4_counterexample :
    (AppState.new ["postgres"]).selected_table = some 0 ∧
    ¬ 0 < (AppState.new ["postgres"]).tables.length := by
  refine ⟨rfl, by decide⟩

/-- C4 (amended): in every session state reachable from initialization
by any sequence of the session operations, both selections are always
`Some(i)` for some `i` (never `None`), and the selected index is within
`[0, len)` whenever the corresponding list is non-empty; for an empty
list the index is `Some` and out of range (e.g. `Some(0)` with an empty
table list), so the claimed `Some(i) ⟺ 0 ≤ i < len` biconditional does
not hold. -/
theorem c4_amended_reachable_invariant (s : AppState) (hr : Reachable s) :
    SelInv s := by
  induction hr with
  | init dbs h => exact selinv_new dbs h
  | next_db _ ih => exact selinv_next_database ih
  | prev_db _ ih => exact selinv_previous_database ih
  | next_tab _ ih => exact selinv_next_table ih
  | prev_tab _ ih => exact selinv_previous_table ih
  | set_tabs ts h _ ih => exact selinv_set_tables ts h ih
  | push_char c _ ih => exact ih
  | pop_char _ ih => exact ih
  | set_result r _ ih => exact ih
  | set_focus p _ ih => exact ih

/-- C4 (witness): the invariant holds of the concrete initial state with
one database. -/
theorem c4_witness : SelInv (AppState.new ["a"]) :=
  c4_amended_reachable_invariant (AppState.new ["a"])
    (Reachable.init ["a"] (by decide))

/-- C5 (counterexample): in the state `AppState::new` produces — empty
table list, `selected_table = Some(0)` — a "next" on the table list
moves the index to `Some(1)`: the guard compares against
`tables.len() - 1`, which wraps to `usize::MAX` on the empty list in a
release build (a debug build panics on the underflow).  The index
therefore leaves `[0, len)` instead of clamping. -/
theorem c5_counterexample :
    (AppState.new ["db"]).tables.length = 0 ∧
    (AppState.new ["db"]).selected_table = some 0 ∧
    (AppState.new ["db"]).next_table.selected_table = some 1 := by
  refine ⟨rfl, rfl, by decide⟩

/-- C5 (amended): starting from in-range selections on non-empty lists,
every sequence of "next"/"previous" operations on the database or table
list keeps the selected indices within `[0, len)`, and the boundary
keypresses are no-ops: "next" at the last index and "previous" at index
0 leave the state unchanged (no wraparound).  The clamping fails only on
an empty list, where the `Some(0)` selection is already out of range and
"next" underflows `len() - 1`. -/
theorem c5_amended_clamped_navigation :
    (∀ (s : AppState) (ops : List NavOp), NavGood s → NavGood (applyNavs s ops)) ∧
    (∀ s : AppState, NavGood s →
        s.selected_database = some (s.databases.length - 1) → s.next_database = s) ∧
    (∀ s : AppState, s.selected_database = some 0 → s.previous_database = s) ∧
    (∀ s : AppState, NavGood s →
        s.selected_table = some (s.tables.length - 1) → s.next_table = s) ∧
    (∀ s : AppState, s.selected_table = some 0 → s.previous_table = s) := by
  refine ⟨fun s ops h => navgood_applyNavs ops s h, ?_, ?_, ?_, ?_⟩
  · intro s hg h
    obtain ⟨hdb, _, ⟨i, _, hilt⟩, _⟩ := hg
    exact next_database_clamp_last hdb (by omega) h
  · intro s h
    exact previous_database_clamp_zero h
  · intro s hg h
    obtain ⟨_, htb, _, ⟨j, _, hjlt⟩⟩ := hg
    exact next_table_clamp_last htb (by omega) h
  · intro s h
    exact previous_table_clamp_zero h

/-- C5 (witness): the amended theorem applied to the concrete
one-database, one-table state with both selections at index 0 (which is
also the last index), and to a concrete two-step navigation sequence. -/
theorem c5_witness :
    NavGood (applyNavs sNav [NavOp.next_db, NavOp.next_tab]) ∧
    sNav.next_database = sNav ∧ sNav.previous_database = sNav ∧
    sNav.next_table = sNav ∧ sNav.previous_table = sNav :=
  have hg : NavGood sNav :=
    ⟨by decide, by decide, ⟨0, rfl, by decide⟩, ⟨0, rfl, by decide⟩⟩
  ⟨c5_amended_clamped_navigation.1 sNav [NavOp.next_db, NavOp.next_tab] hg,
   c5_amended_clamped_navigation.2.1 sNav hg rfl,
   c5_amended_clamped_navigation.2.2.1 sNav rfl,
   c5_amended_clamped_navigation.2.2.2.1 sNav hg rfl,
   c5_amended_clamped_navigation.2.2.2.2 sNav rfl⟩

/-- C6 (counterexample): with the query editor focused, buffer
`SELECT 1` and a gateway returning the single row `["1"]`, the confirm
key stores the textual summary
`Executed query successfully. Rows returned: 1` in `query_result` — a
summary of the row count, not the single-cell tabular result `"1"` the
claim requires. -/
theorem c6_counterexample :
    dispatch gOne sSel KeyCode.Enter KeyModifiers.NONE =
      (StepOutcome.running
        { sSel with query_result := "Executed query successfully. Rows returned: 1" },
       [GCall.run_query ("app") ("SELECT 1")]) ∧
    "Executed query successfully. Rows returned: 1" ≠ "1" := by
  refine ⟨by decide, by decide⟩

/-- C6 (amended): when the confirm key is pressed with the query editor
focused, a selected database in range, and the gateway returning rows
successfully, `query_result` is set to the summary string
`Executed query successfully. Rows returned: N` (where `N` is the row
count), not to the rows themselves. -/
theorem c6_amended_summary (g : Gateway) (s : AppState) (m : KeyModifiers)
    (i : Nat) (db : String) (rows : List (List String))
    (hpane : s.active_pane = ActivePane.QueryInput)
    (hsel : s.selected_database = some i)
    (hget : s.databases[i]? = some db)
    (hq : g.query_rows db (String.mk s.query) = Except.ok rows) :
    dispatch g s KeyCode.Enter m =
      (StepOutcome.running
        { s with query_result :=
            "Executed query successfully. Rows returned: " ++ toString rows.length },
       [GCall.run_query db (String.mk s.query)]) := by
  rw [dispatch_enter_eq, if_pos hpane, hsel]
  dsimp only
  rw [hget]
  dsimp only
  unfold execute_query
  rw [hq]

/-- C6 (witness): the amended theorem applied at the concrete scenario
of the claim (buffer `SELECT 1`, gateway returning the one row
`["1"]`). -/
theorem c6_witness :
    dispatch gOne sSel KeyCode.Enter KeyModifiers.NONE =
      (StepOutcome.running
        { sSel with query_result :=
            "Executed query successfully. Rows returned: " ++
              toString (List.length [[("1" : String)]]) },
       [GCall.run_query ("app") (String.mk sSel.query)]) :=
  c6_amended_summary gOne sSel KeyModifiers.NONE 0 ("app") [[("1" : String)]]
    rfl rfl rfl rfl

/-- C7: the reserved quit key 'q' terminates the main loop (outcome
`StepOutcome.quit`) from every focused pane except the query editor;
with the query editor focused, 'q' is appended to the query buffer
instead (for every modifier the code does not reserve). -/
theorem c7_quit_key (g : Gateway) (s : AppState) (m : KeyModifiers) :
    (s.active_pane ≠ ActivePane.QueryInput →
      dispatch g s (KeyCode.Char 'q') m = (StepOutcome.quit s, [])) ∧
    (s.active_pane = ActivePane.QueryInput →
      dispatch g s (KeyCode.Char 'q') m =
        (StepOutcome.running (s.push_query_char 'q'), [])) := by
  constructor
  · intro h
    rw [dispatch_q_eq, if_neg h]
  · intro h
    rw [dispatch_q_eq, if_pos h]

/-- C7 (witness): quit from the database list, literal capture in the
query editor, at concrete states. -/
theorem c7_witness :
    dispatch g0 (AppState.new ["a"]) (KeyCode.Char 'q') KeyModifiers.NONE =
      (StepOutcome.quit (AppState.new ["a"]), []) ∧
    dispatch g0 sQI (KeyCode.Char 'q') KeyModifiers.NONE =
      (StepOutcome.running (sQI.push_query_char 'q'), []) :=
  ⟨(c7_quit_key g0 (AppState.new ["a"]) KeyModifiers.NONE).1 (by decide),
   (c7_quit_key g0 sQI KeyModifiers.NONE).2 rfl⟩

/-- C8: `pop_query_char` on an empty buffer is a no-op (the whole state
is unchanged), and `push_query_char c` immediately followed by
`pop_query_char` restores exactly the prior state (round-trip law). -/
theorem c8_query_buffer_roundtrip (s : AppState) (c : Char) :
    (s.query = [] → s.pop_query_char = s) ∧
    (s.push_query_char c).pop_query_char = s := by
  rcases s with ⟨dbs, sd, tb, st, q, qr, ap⟩
  constructor
  · intro h
    change q = [] at h
    subst h
    rfl
  · unfold AppState.push_query_char AppState.pop_query_char
    dsimp only
    rw [List.dropLast_concat]

/-- C8 (witness): the round-trip law at a concrete state with an empty
buffer. -/
theorem c8_witness :
    (AppState.new ["a"]).pop_query_char = AppState.new ["a"] ∧
    ((AppState.new ["a"]).push_query_char 'x').pop_query_char = AppState.new ["a"] :=
  ⟨(c8_query_buffer_roundtrip (AppState.new ["a"]) 'x').1 rfl,
   (c8_query_buffer_roundtrip (AppState.new ["a"]) 'x').2⟩

/-- C9: with the table list focused, the unmodified next/previous keys
perform no gateway call (the call list is empty) and change only
`selected_table`: the resulting state equals the old state with just the
`selected_table` field replaced. -/
theorem c9_table_nav (g : Gateway) (s : AppState)
    (h : s.active_pane = ActivePane.Tables) :
    dispatch g s (KeyCode.Char 'j') KeyModifiers.NONE =
      (StepOutcome.running s.next_table, []) ∧
    dispatch g s (KeyCode.Char 'k') KeyModifiers.NONE =
      (StepOutcome.running s.previous_table, []) ∧
    s.next_table = { s with selected_table := s.next_table.selected_table } ∧
    s.previous_table = { s with selected_table := s.previous_table.selected_table } := by
  have hd : s.active_pane ≠ ActivePane.Databases := by
    rw [h]
    decide
  refine ⟨?_, ?_, next_table_eq_update s, previous_table_eq_update s⟩
  · rw [dispatch_j_none_eq, if_neg hd, if_pos h]
  · rw [dispatch_k_none_eq, if_neg hd, if_pos h]

/-- C9 (witness): table navigation at a concrete two-table state. -/
theorem c9_witness :
    dispatch g0 sTab (KeyCode.Char 'j') KeyModifiers.NONE =
      (StepOutcome.running sTab.next_table, []) ∧
    dispatch g0 sTab (KeyCode.Char 'k') KeyModifiers.NONE =
      (StepOutcome.running sTab.previous_table, []) ∧
    sTab.next_table = { sTab with selected_table := sTab.next_table.selected_table } ∧
    sTab.previous_table =
      { sTab with selected_table := sTab.previous_table.selected_table } :=
  c9_table_nav g0 sTab rfl

/-- C10: when a selection is absent (`None`), the corresponding
next/previous operations leave the entire session state unchanged. -/
theorem c10_none_selection_noop (s : AppState) :
    (s.selected_database = none → s.next_database = s ∧ s.previous_database = s) ∧
    (s.selected_table = none → s.next_table = s ∧ s.previous_table = s) := by
  constructor
  · intro h
    constructor
    · unfold AppState.next_database
      rw [h]
    · unfold AppState.previous_database
      rw [h]
  · intro h
    constructor
    · unfold AppState.next_table
      rw [h]
    · unfold AppState.previous_table
      rw [h]

/-- C10 (witness): the no-op at a concrete state with both selections
absent. -/
theorem c10_witness :
    (sNone.next_database = sNone ∧ sNone.previous_database = sNone) ∧
    (sNone.next_table = sNone ∧ sNone.previous_table = sNone) :=
  ⟨(c10_none_selection_noop sNone).1 rfl, (c10_none_selection_noop sNone).2 rfl⟩
